import Mathlib

/-!
Shallow embedding of `rusty-voucher` (src/main.rs), a command-line tool that
authenticates against an external payments API, lets an operator pick a
product, creates a 100%-off coupon for it, and mints a batch of promotion
codes, writing each successfully created code to a local file.

The program is a single linear flow with one retry loop.  We embed it as a
deterministic function of:
  * the operator's console inputs (five strings),
  * an environment describing the external service's responses (one status
    per request, the product list returned on success, the coupon id
    returned on success) and the random-number generator's draws,
  * a fuel bound for the promotion-code loop (the Rust loop is unbounded;
    fuel exhaustion is a model artifact reported as a distinct exit).
The run result records the sequence of HTTP requests issued (paired with the
status each received), the lines written to the output file, and the outcome
(which console abort path was taken, a panic, or loop exit).

Library behaviour used by the source is modelled where the claims need it:
`str::parse::<i32>` / `::<usize>` (sign, digits, range check), chrono's
`NaiveDateTime::parse_from_str` with format `%Y-%m-%d %H:%M:%S` restricted to
the `YYYY-MM-DD 23:59:59` strings the program builds, and `DateTime<Local>::
timestamp` for a local zone modelled as a fixed UTC offset (DST transitions
are out of scope of the claims).
-/

namespace RustyVoucher

/-- HTTP response statuses distinguished by the program: 200, 401, 400, and
everything else. -/
inductive Status where
  | ok
  | unauthorized
  | badRequest
  | other
deriving DecidableEq, Repr

/-! ### Random code generation (src/main.rs, `generate_random_code`) -/

/-- The constant CHARSET of `generate_random_code`:
`b"ABCDEFGHIJKLMNOPQRSTUVWXYZ1234567890"`. -/
def CHARSET : List Char := "ABCDEFGHIJKLMNOPQRSTUVWXYZ1234567890".toList

theorem CHARSET_length : CHARSET.length = 36 := by decide

/-- Indexing `CHARSET[idx]` for an index produced by `rng.gen_range(0..CHARSET.len())`;
the range bound is reflected in the `Fin 36` type of the draw. -/
def charOfIdx (i : Fin 36) : Char := CHARSET.get (Fin.cast CHARSET_length.symm i)

/-- The function `generate_random_code`, with the thread RNG's in-range draws supplied as
an oracle `draws : Nat → Fin 36` (position in the string ↦ drawn index):
six independent draws, each mapped through `CHARSET`. -/
def generate_random_code (draws : Nat → Fin 36) : String :=
  String.mk ((List.range 6).map (fun j => charOfIdx (draws j)))

/-! ### Integer parsing (`str::parse::<i32>` and `::<usize>`) -/

/-- Whitespace as removed by Rust's `str::trim` (restricted to the ASCII
whitespace that console input can contain; `read_line` leaves a trailing
newline on every input, which `trim` strips). -/
def isSpaceChar (c : Char) : Bool := c = ' ' || c = '\t' || c = '\n' || c = '\r'

/-- Rust `str::trim`: remove leading and trailing whitespace. -/
def rustTrim (s : String) : String :=
  String.mk ((((s.toList.dropWhile isSpaceChar).reverse.dropWhile isSpaceChar).reverse))

/-- ASCII decimal digit test. -/
def isDigitChar (c : Char) : Bool := 48 ≤ c.toNat && c.toNat ≤ 57

/-- Numeric value of an ASCII digit. -/
def toDigit (c : Char) : Nat := c.toNat - 48

/-- Value of a digit string, most significant first. -/
def digitsToNat (cs : List Char) : Nat :=
  cs.foldl (fun acc c => acc * 10 + toDigit c) 0

/-- Rust `str::parse::<i32>`: optional `+`/`-` sign, then one or more ASCII
digits, value within `[-2^31, 2^31 - 1]`; anything else is `Err` (`none`). -/
def parseI32 (s : String) : Option Int :=
  match s.toList with
  | [] => none
  | c :: rest =>
    let (sign, digits) : Int × List Char :=
      if c = '+' then (1, rest)
      else if c = '-' then (-1, rest)
      else (1, c :: rest)
    if digits = [] then none
    else if digits.all isDigitChar then
      let v : Int := sign * (digitsToNat digits : Int)
      if -2147483648 ≤ v ∧ v ≤ 2147483647 then some v else none
    else none

/-- Rust `str::parse::<usize>` (64-bit target): optional `+` sign, then one or
more ASCII digits, value within `[0, 2^64 - 1]`. -/
def parseUsize (s : String) : Option Nat :=
  match s.toList with
  | [] => none
  | c :: rest =>
    let digits := if c = '+' then rest else c :: rest
    if digits = [] then none
    else if digits.all isDigitChar then
      let v := digitsToNat digits
      if v ≤ 18446744073709551615 then some v else none
    else none

/-! ### Date parsing and local timestamps

The source builds the string `format!("{} 23:59:59", input.trim())` and parses
it with chrono's `%Y-%m-%d %H:%M:%S`.  Since the appended time part always
matches literally, the parse succeeds exactly when the trimmed input is a
calendar-valid date in `YYYY-MM-DD` form (4-digit year, 2-digit month,
2-digit day), and the resulting `NaiveDateTime` is that date at 23:59:59. -/

/-- Gregorian leap-year rule (as used by chrono's calendar validation). -/
def isLeapYear (y : Nat) : Bool := y % 4 = 0 && (y % 100 ≠ 0 || y % 400 = 0)

/-- Number of days in month `m` of year `y`. -/
def daysInMonth (y m : Nat) : Nat :=
  if m = 2 then (if isLeapYear y then 29 else 28)
  else if m = 4 ∨ m = 6 ∨ m = 9 ∨ m = 11 then 30 else 31

/-- Calendar validity of a year/month/day triple. -/
def validDate (y m d : Nat) : Bool :=
  1 ≤ m && m ≤ 12 && 1 ≤ d && d ≤ daysInMonth y m

/-- Shape of `YYYY-MM-DD` strings: exactly ten characters, digits in the date positions
and `-` separators; yields the year, month and day values. -/
def parseYMD (cs : List Char) : Option (Nat × Nat × Nat) :=
  match cs with
  | [y1, y2, y3, y4, s1, m1, m2, s2, d1, d2] =>
    if s1 = '-' ∧ s2 = '-' ∧ [y1, y2, y3, y4, m1, m2, d1, d2].all isDigitChar then
      some (toDigit y1 * 1000 + toDigit y2 * 100 + toDigit y3 * 10 + toDigit y4,
            toDigit m1 * 10 + toDigit m2,
            toDigit d1 * 10 + toDigit d2)
    else none
  | _ => none

/-- Days since 1970-01-01 of the civil date `y-m-d` (Gregorian, proleptic);
the standard era-based computation used by date libraries. -/
def daysFromCivil (y m d : Nat) : Int :=
  let yi : Int := if m ≤ 2 then (y : Int) - 1 else (y : Int)
  let era : Int := yi / 400
  let yoe : Int := yi - era * 400
  let doy : Int := (153 * (if 2 < m then (m : Int) - 3 else (m : Int) + 9) + 2) / 5
                   + (d : Int) - 1
  let doe : Int := yoe * 365 + yoe / 4 - yoe / 100 + doy
  era * 146097 + doe - 719468

/-- Epoch seconds of local wall-clock time `y-m-d h:mi:s` in a zone `offset`
seconds east of UTC (chrono: `naive_local - offset`, then seconds since
epoch).  This is the specification-side meaning of "epoch seconds of a local
time". -/
def epochSecondsLocal (offset : Int) (y m d h mi s : Nat) : Int :=
  daysFromCivil y m d * 86400 + ((h : Int) * 3600 + (mi : Int) * 60 + (s : Int)) - offset

/-- The expiration pipeline of src/main.rs lines 121–131 applied to the
already-trimmed input string: parse `YYYY-MM-DD`, validate the calendar date
(chrono rejects e.g. month 13 or Feb 30 during parsing), then take the epoch
timestamp of that date at 23:59:59 local time. -/
def parseExpiration (offset : Int) (s : String) : Option Int :=
  match parseYMD s.toList with
  | none => none
  | some (y, m, d) =>
    if validDate y m d then some (epochSecondsLocal offset y m d 23 59 59) else none

theorem daysFromCivil_epoch : daysFromCivil 1970 1 1 = 0 := by decide

theorem daysFromCivil_y2k : daysFromCivil 2000 3 1 = 11017 := by decide

/-! ### Request bodies

Only the fields the program populates are modelled.  `percent_off` is the
`f32` literal `100.0`, which is exactly representable; no arithmetic is ever
performed on it, so it is embedded as a rational. -/

/-- Struct `CouponAppliesTo` (src/main.rs lines 67–70). -/
structure CouponAppliesTo where
  products : List String
deriving DecidableEq, Repr

/-- Struct `CouponRequest` (src/main.rs lines 59–65). -/
structure CouponRequest where
  name : String
  percent_off : ℚ
  redeem_by : Int
  applies_to : CouponAppliesTo
deriving DecidableEq, Repr

/-- Struct `PromotionCodeRestrictions` (src/main.rs lines 81–84). -/
structure PromotionCodeRestrictions where
  first_time_transaction : Bool
deriving DecidableEq, Repr

/-- Struct `PromotionCodeRequest` (src/main.rs lines 72–79). -/
structure PromotionCodeRequest where
  coupon : String
  code : String
  expires_at : Int
  max_redemptions : Int
  restrictions : PromotionCodeRestrictions
deriving DecidableEq, Repr

/-- The local `let first_time_transaction = false;` of src/main.rs line 105.
(The `restrictions` HashMap built inside the loop at lines 256–257 is dead:
it is never read, so it does not appear in the embedding.) -/
def first_time_transaction : Bool := false

/-- The `PromotionCodeRequest` built each loop iteration
(src/main.rs lines 259–267). -/
def mkPromotionCodeRequest (couponId code : String) (expiresAt : Int) :
    PromotionCodeRequest :=
  { coupon := couponId
    code := code
    expires_at := expiresAt
    max_redemptions := 1
    restrictions := { first_time_transaction := first_time_transaction } }

/-- The three kinds of HTTP request the program issues. -/
inductive Request where
  | listProducts
  | createCoupon (r : CouponRequest)
  | createPromotionCode (r : PromotionCodeRequest)
deriving DecidableEq, Repr

/-- A `Product` as consumed by the program: of the many fields the service
returns, only `id` (pushed into the selection list) and `name` (displayed)
are used. -/
structure Product where
  id : String
  name : String
deriving DecidableEq, Repr

/-- The five console inputs, in the order they are read. -/
structure Inputs where
  stripeKey : String
  couponName : String
  expirationString : String
  codeCountString : String
  selectionString : String

/-- The external world: the local time zone's UTC offset, the service's
response to each request (statuses, and the payloads parsed on 200), and the
RNG's draws (`draws a p` is the index drawn for position `p` of attempt
`a`'s code). -/
structure Env where
  tzOffset : Int
  productStatus : Status
  productData : List Product
  couponStatus : Status
  couponId : String
  promoStatus : Nat → Status
  draws : Nat → Nat → Fin 36

/-- How the promotion-code loop ended: counter reached the requested count
(normal exit), `break` on 401, `break` on an unexpected status, or model
fuel exhausted (the Rust loop itself has no retry bound). -/
inductive LoopExit where
  | completed
  | unauthorizedStop
  | unexpectedStop
  | fuelOut
deriving DecidableEq, Repr

/-- State produced by the promotion-code loop: final success counter, the
lines appended to the output file, the promotion-code requests issued (with
the status each received), and how the loop ended. -/
structure LoopResult where
  created : Nat
  file : List String
  trace : List (Request × Status)
  exit : LoopExit
deriving Repr

/-- The `while created_code_count < requested_code_count` loop
(src/main.rs lines 255–300).  Each iteration generates a fresh code from the
attempt's draws, issues one request, and then: 401 → `break`; 400 →
`continue` (nothing recorded); other non-200 → `break`; 200 → increment the
counter, append the code to the file.  `attempt` numbers the requests issued
so far, `fuel` bounds the number of iterations the model unfolds. -/
def promoLoop (requested : Nat) (couponId : String) (expiresAt : Int)
    (status : Nat → Status) (draws : Nat → Nat → Fin 36) :
    Nat → Nat → Nat → List String → LoopResult
  | 0, _, created, file =>
    if created < requested then ⟨created, file, [], .fuelOut⟩
    else ⟨created, file, [], .completed⟩
  | fuel + 1, attempt, created, file =>
    if created < requested then
      let code := generate_random_code (draws attempt)
      let req := Request.createPromotionCode
        (mkPromotionCodeRequest couponId code expiresAt)
      match status attempt with
      | .unauthorized =>
        ⟨created, file, [(req, .unauthorized)], .unauthorizedStop⟩
      | .badRequest =>
        let r := promoLoop requested couponId expiresAt status draws
          fuel (attempt + 1) created file
        ⟨r.created, r.file, (req, .badRequest) :: r.trace, r.exit⟩
      | .other =>
        ⟨created, file, [(req, .other)], .unexpectedStop⟩
      | .ok =>
        let r := promoLoop requested couponId expiresAt status draws
          fuel (attempt + 1) (created + 1) (file ++ [code])
        ⟨r.created, r.file, (req, .ok) :: r.trace, r.exit⟩
    else ⟨created, file, [], .completed⟩

/-- Which console/abort path ended the run.  Each `aborted…` constructor is
one `println! + return` path of `main`; `panickedIndexOutOfBounds` is the
Rust panic raised by `products[requested_product_id]` when the index equals
the list length; `finished` means the run reached the promotion-code loop. -/
inductive Outcome where
  | abortedDateParse
  | abortedCountParse
  | abortedCountNonPositive
  | abortedUnauthorized
  | abortedUnexpected
  | abortedNoProducts
  | abortedSelectionParse
  | abortedInvalidSelection
  | abortedCouponBadRequest
  | panickedIndexOutOfBounds
  | finished (exit : LoopExit)
deriving DecidableEq, Repr

/-- Result of a whole run: every HTTP request issued with the status it
received, the contents of `vouchers.txt` (`none` if the run ended before the
file was created), and the outcome. -/
structure RunResult where
  trace : List (Request × Status)
  file : Option (List String)
  outcome : Outcome
deriving Repr

/-- The function `main` (src/main.rs lines 102–301) as a function of the inputs, the
environment, and the loop fuel.  Stages in source order: parse the
expiration date (abort on failure), parse the code count as `i32` (abort on
failure or non-positive), GET the product list (abort on 401 / non-200 /
empty list), parse the selection as `usize` (abort on failure), reject the
selection only when it exceeds the list length, index the product list
(panics when the index equals the length), POST the coupon (abort on
401/400/non-200), then run the promotion-code loop, writing each successful
code to the freshly created file.  The file-creation `unwrap` is assumed to
succeed. -/
def mainRun (env : Env) (inputs : Inputs) (fuel : Nat) : RunResult :=
  match parseExpiration env.tzOffset (rustTrim inputs.expirationString) with
  | none => ⟨[], none, .abortedDateParse⟩
  | some ts =>
    match parseI32 (rustTrim inputs.codeCountString) with
    | none => ⟨[], none, .abortedCountParse⟩
    | some requested =>
      if requested ≤ 0 then ⟨[], none, .abortedCountNonPositive⟩
      else
        match env.productStatus with
        | .unauthorized =>
          ⟨[(.listProducts, .unauthorized)], none, .abortedUnauthorized⟩
        | .badRequest =>
          ⟨[(.listProducts, .badRequest)], none, .abortedUnexpected⟩
        | .other =>
          ⟨[(.listProducts, .other)], none, .abortedUnexpected⟩
        | .ok =>
          if (env.productData.map Product.id).isEmpty then
            ⟨[(.listProducts, .ok)], none, .abortedNoProducts⟩
          else
            match parseUsize (rustTrim inputs.selectionString) with
            | none => ⟨[(.listProducts, .ok)], none, .abortedSelectionParse⟩
            | some k =>
              if (env.productData.map Product.id).length < k then
                ⟨[(.listProducts, .ok)], none, .abortedInvalidSelection⟩
              else
                match (env.productData.map Product.id).get? k with
                | none => ⟨[(.listProducts, .ok)], none, .panickedIndexOutOfBounds⟩
                | some pid =>
                  match env.couponStatus with
                  | .unauthorized =>
                    ⟨[(.listProducts, .ok),
                      (.createCoupon { name := rustTrim inputs.couponName
                                       percent_off := 100
                                       redeem_by := ts
                                       applies_to := { products := [pid] } },
                       .unauthorized)], none, .abortedUnauthorized⟩
                  | .badRequest =>
                    ⟨[(.listProducts, .ok),
                      (.createCoupon { name := rustTrim inputs.couponName
                                       percent_off := 100
                                       redeem_by := ts
                                       applies_to := { products := [pid] } },
                       .badRequest)], none, .abortedCouponBadRequest⟩
                  | .other =>
                    ⟨[(.listProducts, .ok),
                      (.createCoupon { name := rustTrim inputs.couponName
                                       percent_off := 100
                                       redeem_by := ts
                                       applies_to := { products := [pid] } },
                       .other)], none, .abortedUnexpected⟩
                  | .ok =>
                    ⟨[(.listProducts, .ok),
                      (.createCoupon { name := rustTrim inputs.couponName
                                       percent_off := 100
                                       redeem_by := ts
                                       applies_to := { products := [pid] } },
                       .ok)]
                      ++ (promoLoop requested.toNat env.couponId ts
                            env.promoStatus env.draws fuel 0 0 []).trace,
                     some (promoLoop requested.toNat env.couponId ts
                            env.promoStatus env.draws fuel 0 0 []).file,
                     .finished (promoLoop requested.toNat env.couponId ts
                            env.promoStatus env.draws fuel 0 0 []).exit⟩

/-! ### Loop lemmas -/

/-- Invariant of the promotion-code loop: starting from a file whose line
count equals the success counter, with the counter not above the requested
count, the loop preserves both facts, and a `completed` exit means the
counter reached exactly the requested count. -/
theorem promoLoop_inv (requested : Nat) (cid : String) (ts : Int)
    (st : Nat → Status) (dr : Nat → Nat → Fin 36) :
    ∀ fuel attempt created file,
      file.length = created → created ≤ requested →
      ((promoLoop requested cid ts st dr fuel attempt created file).file.length
          = (promoLoop requested cid ts st dr fuel attempt created file).created
        ∧ (promoLoop requested cid ts st dr fuel attempt created file).created ≤ requested
        ∧ ((promoLoop requested cid ts st dr fuel attempt created file).exit = .completed
            → (promoLoop requested cid ts st dr fuel attempt created file).created
                = requested)) := by
  intro fuel
  induction fuel with
  | zero =>
    intro attempt created file hlen hle
    by_cases h : created < requested <;> simp [promoLoop, h, hlen, hle]
    all_goals omega
  | succ f ih =>
    intro attempt created file hlen hle
    by_cases h : created < requested
    · cases hst : st attempt
      · have := ih (attempt + 1) (created + 1)
          (file ++ [generate_random_code (dr attempt)])
          (by simp [hlen]) (by omega)
        simpa [promoLoop, h, hst] using this
      · simp [promoLoop, h, hst, hlen, hle]
      · have := ih (attempt + 1) created file hlen hle
        simpa [promoLoop, h, hst] using this
      · simp [promoLoop, h, hst, hlen, hle]
    · simp [promoLoop, h, hlen, hle]
      omega

/-- The request issued by attempt `a` of the loop, given the coupon id, the
expiration timestamp and the RNG draws. -/
def attemptRequest (cid : String) (ts : Int) (dr : Nat → Nat → Fin 36)
    (a : Nat) : Request :=
  Request.createPromotionCode
    (mkPromotionCodeRequest cid (generate_random_code (dr a)) ts)

/-- When the service answers 200 to every attempt from `attempt` on and
enough fuel remains, the loop completes: the counter reaches the requested
count and exactly the codes of attempts `attempt, attempt+1, …` are appended
to the file, one per successful attempt. -/
theorem promoLoop_allOk (requested : Nat) (cid : String) (ts : Int)
    (st : Nat → Status) (dr : Nat → Nat → Fin 36) :
    ∀ fuel attempt created file,
      (∀ j, attempt ≤ j → st j = .ok) →
      created ≤ requested → requested - created ≤ fuel →
      promoLoop requested cid ts st dr fuel attempt created file =
        ⟨requested,
         file ++ (List.range' attempt (requested - created)).map
           (fun a => generate_random_code (dr a)),
         (List.range' attempt (requested - created)).map
           (fun a => (attemptRequest cid ts dr a, Status.ok)),
         .completed⟩ := by
  intro fuel
  induction fuel with
  | zero =>
    intro attempt created file hok hle hfuel
    have h : ¬ created < requested := by omega
    have hcr : created = requested := by omega
    simp [promoLoop, h, hcr]
  | succ f ih =>
    intro attempt created file hok hle hfuel
    by_cases h : created < requested
    · have hst : st attempt = .ok := hok attempt (Nat.le_refl _)
      have hrec := ih (attempt + 1) (created + 1)
        (file ++ [generate_random_code (dr attempt)])
        (fun j hj => hok j (by omega)) (by omega) (by omega)
      have hn : requested - created = (requested - (created + 1)) + 1 := by omega
      simp only [promoLoop, h, if_pos, hst, hrec, hn, List.range'_succ,
        List.map_cons, List.append_assoc, List.singleton_append]
      rfl
    · have hcr : created = requested := by omega
      have hn : requested - created = 0 := by omega
      simp [promoLoop, h, hcr, hn]

/-- In the loop's request trace, an entry that received 401 is the last
entry: the loop breaks immediately and issues no further request. -/
theorem promoLoop_unauthorized_last (requested : Nat) (cid : String) (ts : Int)
    (st : Nat → Status) (dr : Nat → Nat → Fin 36) :
    ∀ fuel attempt created file i e,
      (promoLoop requested cid ts st dr fuel attempt created file).trace[i]?
        = some e →
      e.2 = .unauthorized →
      (promoLoop requested cid ts st dr fuel attempt created file).trace.length
        = i + 1 := by
  intro fuel
  induction fuel with
  | zero =>
    intro attempt created file i e hget _
    by_cases h : created < requested <;> simp [promoLoop, h] at hget
  | succ f ih =>
    intro attempt created file i e hget hu
    by_cases h : created < requested
    · cases hst : st attempt
      · -- 200: head entry has status ok, tail handled by the induction
        simp only [promoLoop, h, if_pos, hst] at hget ⊢
        match i, hget with
        | 0, hget =>
          simp at hget
          rw [← hget] at hu
          simp at hu
        | i + 1, hget =>
          simp only [List.getElem?_cons_succ] at hget
          have := ih (attempt + 1) (created + 1)
            (file ++ [generate_random_code (dr attempt)]) i e hget hu
          simp [this]
      · simp only [promoLoop, h, if_pos, hst] at hget ⊢
        match i, hget with
        | 0, hget => simp
        | i + 1, hget => simp at hget
      · simp only [promoLoop, h, if_pos, hst] at hget ⊢
        match i, hget with
        | 0, hget =>
          simp at hget
          rw [← hget] at hu
          simp at hu
        | i + 1, hget =>
          simp only [List.getElem?_cons_succ] at hget
          have := ih (attempt + 1) created file i e hget hu
          simp [this]
      · simp only [promoLoop, h, if_pos, hst] at hget ⊢
        match i, hget with
        | 0, hget =>
          simp at hget
          rw [← hget] at hu
          simp at hu
        | i + 1, hget => simp at hget
    · simp [promoLoop, h] at hget

/-- A trace entry is "unrestricted" when, if it is a promotion-code request,
its `restrictions.first_time_transaction` field is `false`. -/
def promoUnrestricted : Request × Status → Bool
  | (.createPromotionCode r, _) => !r.restrictions.first_time_transaction
  | _ => true

/-- Every promotion-code request the loop issues carries
`first_time_transaction = false`. -/
theorem promoLoop_unrestricted (requested : Nat) (cid : String) (ts : Int)
    (st : Nat → Status) (dr : Nat → Nat → Fin 36) :
    ∀ fuel attempt created file,
      (promoLoop requested cid ts st dr fuel attempt created file).trace.all
        promoUnrestricted = true := by
  intro fuel
  induction fuel with
  | zero =>
    intro attempt created file
    by_cases h : created < requested <;> simp [promoLoop, h]
  | succ f ih =>
    intro attempt created file
    by_cases h : created < requested
    · cases hst : st attempt <;>
        simp [promoLoop, h, hst, promoUnrestricted, mkPromotionCodeRequest,
          first_time_transaction, ih]
    · simp [promoLoop, h]

/-- One 400-answered attempt: the loop records the request, then retries with
the next attempt's fresh code, leaving the success counter and the file
untouched by this attempt. -/
theorem promoLoop_badRequest_step (requested : Nat) (cid : String) (ts : Int)
    (st : Nat → Status) (dr : Nat → Nat → Fin 36)
    (fuel attempt created : Nat) (file : List String)
    (h : created < requested) (hst : st attempt = .badRequest) :
    promoLoop requested cid ts st dr (fuel + 1) attempt created file =
      { created := (promoLoop requested cid ts st dr fuel (attempt + 1)
          created file).created
        file := (promoLoop requested cid ts st dr fuel (attempt + 1)
          created file).file
        trace := (attemptRequest cid ts dr attempt, Status.badRequest)
          :: (promoLoop requested cid ts st dr fuel (attempt + 1)
              created file).trace
        exit := (promoLoop requested cid ts st dr fuel (attempt + 1)
          created file).exit } := by
  simp [promoLoop, h, hst, attemptRequest]

/-! ### Character-level lemmas for generated codes -/

/-- The alphabet the spec names: capital Latin letters and decimal digits. -/
def isCodeChar (c : Char) : Bool :=
  ('A' ≤ c && c ≤ 'Z') || ('0' ≤ c && c ≤ '9')

theorem CHARSET_codeChars : CHARSET.all isCodeChar = true := by decide

theorem charOfIdx_injective : Function.Injective charOfIdx := by decide

theorem charOfIdx_mem (i : Fin 36) : charOfIdx i ∈ CHARSET :=
  List.get_mem CHARSET _ (Fin.cast CHARSET_length.symm i).isLt

theorem generate_random_code_length (draws : Nat → Fin 36) :
    (generate_random_code draws).length = 6 := by
  simp [generate_random_code, String.length]

theorem generate_random_code_chars (draws : Nat → Fin 36) :
    (generate_random_code draws).toList.all isCodeChar = true := by
  simp only [generate_random_code, String.toList, List.all_eq_true]
  intro c hc
  simp only [String.mk, List.mem_map, List.mem_range] at hc
  obtain ⟨j, _, rfl⟩ := hc
  have hmem := charOfIdx_mem (draws j)
  have := CHARSET_codeChars
  simp only [List.all_eq_true] at this
  exact this _ hmem

/-! ### Digit formatting and the `YYYY-MM-DD` round trip -/

/-- The ASCII character of a decimal digit (`n < 10`). -/
def digitChar (n : Nat) : Char :=
  match n with
  | 0 => '0' | 1 => '1' | 2 => '2' | 3 => '3' | 4 => '4'
  | 5 => '5' | 6 => '6' | 7 => '7' | 8 => '8' | _ => '9'

/-- The ten characters of the date `y-m-d` written in `YYYY-MM-DD` form
(zero-padded; meaningful for `y < 10000`, `m < 100`, `d < 100`). -/
def dateChars (y m d : Nat) : List Char :=
  [digitChar (y / 1000), digitChar (y / 100 % 10), digitChar (y / 10 % 10),
   digitChar (y % 10), '-', digitChar (m / 10), digitChar (m % 10), '-',
   digitChar (d / 10), digitChar (d % 10)]

theorem toDigit_digitChar (n : Nat) (h : n < 10) :
    toDigit (digitChar n) = n := by
  interval_cases n <;> rfl

theorem isDigitChar_digitChar (n : Nat) (h : n < 10) :
    isDigitChar (digitChar n) = true := by
  interval_cases n <;> rfl

/-- Parsing the formatted `YYYY-MM-DD` string of a date recovers the date. -/
theorem parseYMD_dateChars (y m d : Nat)
    (hy : y < 10000) (hm : m < 100) (hd : d < 100) :
    parseYMD (dateChars y m d) = some (y, m, d) := by
  have h1 : y / 1000 < 10 := by omega
  have h2 : y / 100 % 10 < 10 := by omega
  have h3 : y / 10 % 10 < 10 := by omega
  have h4 : y % 10 < 10 := by omega
  have h5 : m / 10 < 10 := by omega
  have h6 : m % 10 < 10 := by omega
  have h7 : d / 10 < 10 := by omega
  have h8 : d % 10 < 10 := by omega
  simp only [parseYMD, dateChars, List.all_cons, List.all_nil,
    isDigitChar_digitChar, toDigit_digitChar, h1, h2, h3, h4, h5, h6, h7, h8,
    Bool.and_true, Bool.and_self, and_true, true_and, if_pos,
    Option.some.injEq, Prod.mk.injEq]
  refine ⟨by omega, by omega, by omega⟩

/-! ### Concrete scenario data (used by the closed instances below) -/

/-- A concrete draw oracle. -/
def drawsA : Nat → Nat → Fin 36 :=
  fun a p => ⟨(a + p) % 36, Nat.mod_lt _ (by decide)⟩

/-- A service with one product that answers 200 everywhere. -/
def envA : Env :=
  { tzOffset := 0
    productStatus := .ok
    productData := [{ id := "prod_A", name := "Widget" }]
    couponStatus := .ok
    couponId := "co_1"
    promoStatus := fun _ => .ok
    draws := drawsA }

/-- As `envA` but the product listing answers 401. -/
def env401 : Env := { envA with productStatus := .unauthorized }

/-- Console inputs with a given code-count string and selection string. -/
def inputsA (count sel : String) : Inputs :=
  { stripeKey := "sk_test_123\n"
    couponName := " Winter Promo \n"
    expirationString := "2030-01-01\n"
    codeCountString := count
    selectionString := sel }

/-- A service whose promotion-code endpoint answers 400 for exactly the
first two attempts and 200 thereafter. -/
def twoBadThenOk : Nat → Status := fun i => if i < 2 then .badRequest else .ok

/-- As `envA` but in a zone one hour west of UTC. -/
def envB : Env := { envA with tzOffset := -3600 }

/-- Inputs whose expiration string is not a date. -/
def inputsBadDate : Inputs :=
  { inputsA "3\n" "0\n" with expirationString := "not-a-date\n" }

/-! ### The claims -/

/-- Claim C2: for every promotion-code creation request the program constructs,
the `restrictions.first_time_transaction` field is `false`: it is populated
from the local constant `first_time_transaction` fixed at `false`
(src/main.rs line 105), regardless of any other input, so every created
promotion code is unrestricted. -/
theorem C2_restrictions_always_false :
    first_time_transaction = false
    ∧ (∀ cid code ts, (mkPromotionCodeRequest cid code ts).restrictions.first_time_transaction
        = false)
    ∧ ∀ (env : Env) (inputs : Inputs) (fuel : Nat),
        (mainRun env inputs fuel).trace.all promoUnrestricted = true := by
  refine ⟨rfl, fun _ _ _ => rfl, fun env inputs fuel => ?_⟩
  unfold mainRun
  repeat' split
  all_goals simp [promoUnrestricted, promoLoop_unrestricted]

/-- Claim C4: whenever any of the three kinds of HTTP requests (product
listing, coupon creation, promotion-code creation) is answered with status
401, the run terminates: the trace entry that received 401 is the final
entry of the run's request trace, so no further HTTP request is issued
after that point, at whichever stage the 401 occurs. -/
theorem C4_unauthorized_terminal (env : Env) (inputs : Inputs) (fuel i : Nat)
    (e : Request × Status)
    (hget : (mainRun env inputs fuel).trace[i]? = some e)
    (hu : e.2 = .unauthorized) :
    (mainRun env inputs fuel).trace.length = i + 1 := by
  revert hget hu
  revert e
  revert i
  show ∀ i e, (mainRun env inputs fuel).trace[i]? = some e →
    e.2 = .unauthorized → (mainRun env inputs fuel).trace.length = i + 1
  unfold mainRun
  repeat' split
  all_goals intro i e hget hu
  all_goals
    first
    | (simp at hget <;> done)
    | (rcases i with _ | _ | i
       · simp only [List.cons_append, List.nil_append, List.getElem?_cons_zero,
           Option.some.injEq] at hget
         subst hget
         simp_all
       · first
         | (simp at hget <;> done)
         | (simp only [List.cons_append, List.nil_append, List.getElem?_cons_zero,
              List.getElem?_cons_succ, Option.some.injEq] at hget
            subst hget
            simp_all)
       · first
         | (simp at hget <;> done)
         | (simp only [List.cons_append, List.nil_append,
              List.getElem?_cons_succ] at hget
            have hlast := promoLoop_unauthorized_last _ _ _ _ _ fuel 0 0 [] i e hget hu
            simp only [List.length_append, List.length_cons, List.length_nil, hlast]
            omega))

/-- Closed instance of `C4_unauthorized_terminal`: a 401 on the product
listing ends the run with that single request in the trace. -/
theorem C4_witness :
    (mainRun env401 (inputsA "3\n" "0\n") 5).trace[0]?
      = some (.listProducts, .unauthorized)
    ∧ (mainRun env401 (inputsA "3\n" "0\n") 5).trace.length = 0 + 1 :=
  ⟨by decide,
   C4_unauthorized_terminal env401 (inputsA "3\n" "0\n") 5 0
     (.listProducts, .unauthorized) (by decide) rfl⟩

/-- Claim C7: every generated code has length exactly 6; every character of it
belongs to `CHARSET`; position `j` of the code is determined by position
`j`'s own draw (independence); and `CHARSET` is, without repetition, exactly
the 36-symbol alphabet A–Z plus 0–9, with the draw-to-character map
injective — so per-position uniform draws over the 36 indices are
per-position uniform draws over that alphabet. -/
theorem C7_code_shape (draws : Nat → Fin 36) :
    (generate_random_code draws).length = 6
    ∧ (generate_random_code draws).toList.all isCodeChar = true
    ∧ (generate_random_code draws).toList
        = (List.range 6).map (fun j => charOfIdx (draws j))
    ∧ CHARSET.Perm "ABCDEFGHIJKLMNOPQRSTUVWXYZ0123456789".toList
    ∧ CHARSET.Nodup
    ∧ Function.Injective charOfIdx :=
  ⟨generate_random_code_length draws, generate_random_code_chars draws, rfl,
   by decide, by decide, charOfIdx_injective⟩

/-- Closed instance of `C7_code_shape` at the all-zero draw. -/
theorem C7_witness :
    (generate_random_code (fun _ => (0 : Fin 36))).length = 6
    ∧ (generate_random_code (fun _ => (0 : Fin 36))).toList.all isCodeChar
        = true :=
  ⟨(C7_code_shape (fun _ => (0 : Fin 36))).1,
   (C7_code_shape (fun _ => (0 : Fin 36))).2.1⟩

/-- Claim C9: throughout the promotion-code loop, the number of lines written
to the output file equals the success counter `created_code_count` (each
successful attempt writes exactly one line, failed attempts write none),
the counter never exceeds `requested_code_count`, and on normal loop exit it
equals `requested_code_count`. -/
theorem C9_lines_eq_counter (requested : Nat) (cid : String) (ts : Int)
    (st : Nat → Status) (dr : Nat → Nat → Fin 36) (fuel attempt created : Nat)
    (file : List String) (hlen : file.length = created)
    (hle : created ≤ requested) :
    (promoLoop requested cid ts st dr fuel attempt created file).file.length
        = (promoLoop requested cid ts st dr fuel attempt created file).created
    ∧ (promoLoop requested cid ts st dr fuel attempt created file).created
        ≤ requested
    ∧ ((promoLoop requested cid ts st dr fuel attempt created file).exit
          = .completed
        → (promoLoop requested cid ts st dr fuel attempt created file).created
            = requested) :=
  promoLoop_inv requested cid ts st dr fuel attempt created file hlen hle

/-- Closed instance of `C9_lines_eq_counter` on a concrete loop run. -/
theorem C9_witness :
    (promoLoop 2 "co_1" 0 twoBadThenOk drawsA 4 0 0 []).file.length
        = (promoLoop 2 "co_1" 0 twoBadThenOk drawsA 4 0 0 []).created
    ∧ (promoLoop 2 "co_1" 0 twoBadThenOk drawsA 4 0 0 []).created ≤ 2
    ∧ ((promoLoop 2 "co_1" 0 twoBadThenOk drawsA 4 0 0 []).exit = .completed
        → (promoLoop 2 "co_1" 0 twoBadThenOk drawsA 4 0 0 []).created = 2) :=
  C9_lines_eq_counter 2 "co_1" 0 twoBadThenOk drawsA 4 0 0 [] rfl (by decide)

/-- Counterexample to C1: with one product (N = 1) and entered index k = 1
= N, the validity check of src/main.rs line 202 passes (the selection is not
rejected), but the run does not proceed to coupon creation: the subsequent
indexing of the product list with k = N fails (`products.get? 1 = none`,
the out-of-bounds panic of `products[requested_product_id]`), and no coupon
request is ever issued. -/
theorem C1_counterexample :
    ¬ ((envA.productData.map Product.id).length < 1)
    ∧ (envA.productData.map Product.id).get? 1 = none
    ∧ (mainRun envA (inputsA "3\n" "1\n") 5).outcome = .panickedIndexOutOfBounds
    ∧ (mainRun envA (inputsA "3\n" "1\n") 5).trace = [(.listProducts, .ok)] :=
  ⟨by decide, by decide, by decide, by decide⟩

/-- Claim C1 (amended): for a product list of size N, the selection is
rejected with the invalid-product message exactly when the entered index k
is strictly greater than N; every selection with 0 ≤ k < N succeeds and
proceeds to coupon creation (the coupon request is issued as the second
request of the trace); selecting exactly k = N also passes the validity
check, but the subsequent indexing of the product list with k = N fails:
the run panics out of bounds before any coupon request is issued. -/
theorem C1_selection_boundary (env : Env) (inputs : Inputs) (fuel : Nat)
    (ts requested : Int) (k : Nat)
    (hdate : parseExpiration env.tzOffset (rustTrim inputs.expirationString)
      = some ts)
    (hcount : parseI32 (rustTrim inputs.codeCountString) = some requested)
    (hpos : 0 < requested)
    (hprod : env.productStatus = .ok)
    (hne : env.productData ≠ [])
    (hsel : parseUsize (rustTrim inputs.selectionString) = some k) :
    (env.productData.length < k →
      (mainRun env inputs fuel).outcome = .abortedInvalidSelection
      ∧ (mainRun env inputs fuel).trace = [(.listProducts, .ok)])
    ∧ (k < env.productData.length →
      ∃ r, (mainRun env inputs fuel).trace[1]?
        = some (Request.createCoupon r, env.couponStatus))
    ∧ (k = env.productData.length →
      ¬ (env.productData.length < k)
      ∧ (mainRun env inputs fuel).outcome = .panickedIndexOutOfBounds
      ∧ (mainRun env inputs fuel).trace = [(.listProducts, .ok)]) := by
  have hreq : ¬ requested ≤ 0 := by omega
  have hempty : (env.productData.map Product.id).isEmpty = false := by
    simp [List.isEmpty_iff, hne]
  refine ⟨fun hk => ?_, fun hk => ?_, fun hk => ?_⟩
  · constructor <;>
      simp [mainRun, hdate, hcount, hreq, hprod, hempty, hsel, hk]
  · have hkk : ¬ (env.productData.length < k) := by omega
    have hp : env.productData[k]? = some (env.productData.get ⟨k, hk⟩) :=
      List.getElem_eq_iff.mp rfl
    refine ⟨{ name := rustTrim inputs.couponName
              percent_off := 100
              redeem_by := ts
              applies_to :=
                { products := [(env.productData.get ⟨k, hk⟩).id] } },
            ?_⟩
    cases hcs : env.couponStatus <;>
      simp [mainRun, hdate, hcount, hreq, hprod, hempty, hsel, hkk, hp, hcs]
  · have hkk : ¬ (env.productData.length < k) := by omega
    have hnone : env.productData[k]? = none :=
      List.getElem?_eq_none_iff.mpr (by omega)
    refine ⟨hkk, ?_, ?_⟩ <;>
      simp [mainRun, hdate, hcount, hreq, hprod, hempty, hsel, hkk, hnone]

/-- Closed instance of `C1_selection_boundary` at k = 0 < N = 1: the
selection succeeds and the coupon request is issued. -/
theorem C1_witness :
    0 < envA.productData.length
    ∧ ∃ r, (mainRun envA (inputsA "3\n" "0\n") 5).trace[1]?
        = some (Request.createCoupon r, envA.couponStatus) :=
  ⟨by decide,
   (C1_selection_boundary envA (inputsA "3\n" "0\n") 5 1893542399 3 0
      (by decide) (by decide) (by decide) rfl (by decide) (by decide)).2.1
     (by decide)⟩

/-- Bound used for date digits: `daysInMonth` never exceeds 31. -/
theorem daysInMonth_le (y m : Nat) : daysInMonth y m ≤ 31 := by
  unfold daysInMonth
  repeat' split
  all_goals omega

/-- Claim C3: every promotion-code attempt answered with HTTP 400 is discarded
and retried with a fresh random code, without incrementing the success
counter and without writing anything to the output file (the loop state
after the 400 attempt equals the state of the retry starting at the next
attempt); and for a service that returns 400 for exactly the first two
attempts and 200 thereafter, the loop reaches `requested` successes and the
output file holds exactly the codes of the succeeding attempts (attempts
2, 3, …). -/
theorem C3_badRequest_retry (requested : Nat) (cid : String) (ts : Int)
    (st : Nat → Status) (dr : Nat → Nat → Fin 36) (fuel attempt created : Nat)
    (file : List String) (hlt : created < requested)
    (hbad : st attempt = .badRequest) (hfuel : requested + 2 ≤ fuel) :
    ((promoLoop requested cid ts st dr (fuel + 1) attempt created file).created
        = (promoLoop requested cid ts st dr fuel (attempt + 1) created file).created
     ∧ (promoLoop requested cid ts st dr (fuel + 1) attempt created file).file
        = (promoLoop requested cid ts st dr fuel (attempt + 1) created file).file)
    ∧ ((promoLoop requested cid ts twoBadThenOk dr fuel 0 0 []).created = requested
       ∧ (promoLoop requested cid ts twoBadThenOk dr fuel 0 0 []).exit = .completed
       ∧ (promoLoop requested cid ts twoBadThenOk dr fuel 0 0 []).file
           = (List.range' 2 requested).map (fun a => generate_random_code (dr a))) := by
  constructor
  · rw [promoLoop_badRequest_step requested cid ts st dr fuel attempt created file
      hlt hbad]
    exact ⟨rfl, rfl⟩
  · obtain ⟨f, rfl⟩ : ∃ f, fuel = f + 1 + 1 := ⟨fuel - 2, by omega⟩
    have hreq : 0 < requested := by omega
    have hok : ∀ j, 1 + 1 ≤ j → twoBadThenOk j = .ok := by
      intro j hj
      simp only [twoBadThenOk, if_neg (by omega : ¬ j < 2)]
    rw [promoLoop_badRequest_step requested cid ts twoBadThenOk dr (f + 1) 0 0 []
      hreq rfl]
    rw [promoLoop_badRequest_step requested cid ts twoBadThenOk dr f (0 + 1) 0 []
      hreq rfl]
    rw [promoLoop_allOk requested cid ts twoBadThenOk dr f (0 + 1 + 1) 0 [] hok
      (by omega) (by omega)]
    simp

/-- Closed instance of `C3_badRequest_retry`: with the first two attempts
rejected, three requested codes come from attempts 2, 3 and 4. -/
theorem C3_witness :
    (promoLoop 3 "co_1" 0 twoBadThenOk drawsA 5 0 0 []).created = 3
    ∧ (promoLoop 3 "co_1" 0 twoBadThenOk drawsA 5 0 0 []).exit = .completed
    ∧ (promoLoop 3 "co_1" 0 twoBadThenOk drawsA 5 0 0 []).file
        = (List.range' 2 3).map (fun a => generate_random_code (drawsA a)) :=
  (C3_badRequest_retry 3 "co_1" 0 twoBadThenOk drawsA 5 0 0 [] (by decide) rfl
    (by decide)).2

/-- Claim C5: for every valid expiration input of form `YYYY-MM-DD`, the
parsed expiration timestamp is the epoch-seconds value of 23:59:59 local
time on that date; and on every input on which this parse fails, the run
aborts through the cannot-parse-date path before any network call is made:
the request trace is empty. -/
theorem C5_expiration_parse (env : Env) (inputs : Inputs) (fuel : Nat)
    (y m d : Nat) (hy : y < 10000) (hvalid : validDate y m d = true) :
    parseExpiration env.tzOffset (String.mk (dateChars y m d))
        = some (epochSecondsLocal env.tzOffset y m d 23 59 59)
    ∧ (parseExpiration env.tzOffset (rustTrim inputs.expirationString) = none →
        (mainRun env inputs fuel).trace = []
        ∧ (mainRun env inputs fuel).file = none
        ∧ (mainRun env inputs fuel).outcome = .abortedDateParse) := by
  constructor
  · have hv := hvalid
    simp only [validDate, Bool.and_eq_true, decide_eq_true_eq] at hv
    obtain ⟨⟨⟨h1, h2⟩, h3⟩, h4⟩ := hv
    have hm : m < 100 := by omega
    have hd : d < 100 := by
      have := daysInMonth_le y m
      omega
    unfold parseExpiration
    rw [show (String.mk (dateChars y m d)).toList = dateChars y m d from rfl]
    rw [parseYMD_dateChars y m d hy hm hd]
    simp [hvalid]
  · intro hfail
    refine ⟨?_, ?_, ?_⟩ <;> simp [mainRun, hfail]

/-- Closed instance of `C5_expiration_parse`: 2030-06-15 in a UTC−01:00
zone, and a malformed input aborting before any request. -/
theorem C5_witness :
    parseExpiration envB.tzOffset (String.mk (dateChars 2030 6 15))
        = some (epochSecondsLocal envB.tzOffset 2030 6 15 23 59 59)
    ∧ (mainRun envB inputsBadDate 5).trace = []
    ∧ (mainRun envB inputsBadDate 5).outcome = .abortedDateParse :=
  ⟨(C5_expiration_parse envB inputsBadDate 5 2030 6 15 (by decide) (by decide)).1,
   ((C5_expiration_parse envB inputsBadDate 5 2030 6 15 (by decide) (by decide)).2
      (by decide)).1,
   ((C5_expiration_parse envB inputsBadDate 5 2030 6 15 (by decide) (by decide)).2
      (by decide)).2.2⟩

/-- Claim C6: a code-count input that does not parse as an `i32`, or parses to
zero or a negative value, makes the program abort with a message before any
network call (empty request trace); an input parsing to a positive integer
proceeds to the product-listing request, which is the first request of the
trace. -/
theorem C6_count_validation (env : Env) (inputs : Inputs) (fuel : Nat)
    (ts : Int)
    (hdate : parseExpiration env.tzOffset (rustTrim inputs.expirationString)
      = some ts) :
    (parseI32 (rustTrim inputs.codeCountString) = none →
      (mainRun env inputs fuel).trace = []
      ∧ (mainRun env inputs fuel).outcome = .abortedCountParse)
    ∧ (∀ v, parseI32 (rustTrim inputs.codeCountString) = some v → v ≤ 0 →
      (mainRun env inputs fuel).trace = []
      ∧ (mainRun env inputs fuel).outcome = .abortedCountNonPositive)
    ∧ (∀ v, parseI32 (rustTrim inputs.codeCountString) = some v → 0 < v →
      (mainRun env inputs fuel).trace[0]? = some (.listProducts, env.productStatus)) := by
  refine ⟨fun h => ?_, fun v hv hle => ?_, fun v hv hpos => ?_⟩
  · constructor <;> simp [mainRun, hdate, h]
  · constructor <;> simp [mainRun, hdate, hv, hle]
  · have hreq : ¬ v ≤ 0 := by omega
    cases hps : env.productStatus
    all_goals simp only [mainRun, hdate, hv, hreq, if_neg, hps]
    all_goals repeat' split
    all_goals simp_all

/-- Closed instance of `C6_count_validation`: count `3` proceeds to the
product-listing request. -/
theorem C6_witness :
    (mainRun envA (inputsA "3\n" "0\n") 3).trace[0]?
      = some (.listProducts, envA.productStatus) :=
  (C6_count_validation envA (inputsA "3\n" "0\n") 3 1893542399
    (by decide)).2.2 3 (by decide) (by decide)

/-- Claim C8: in the end-to-end success scenario (valid credential, one
product available, valid expiration date, requested count n, service
answering 200 to the coupon request and to every promotion-code request),
the coupon request carries `name` = trimmed operator input, `percent_off` =
100.0, `redeem_by` = the parsed expiration epoch seconds, and a
product-restriction list containing exactly the selected product's
identifier; and the output file ends with exactly n lines, each a
6-character alphanumeric code. -/
theorem C8_end_to_end (env : Env) (inputs : Inputs) (fuel : Nat)
    (ts n : Int) (p : Product)
    (hdate : parseExpiration env.tzOffset (rustTrim inputs.expirationString)
      = some ts)
    (hcount : parseI32 (rustTrim inputs.codeCountString) = some n)
    (hpos : 0 < n)
    (hprod : env.productStatus = .ok)
    (hdata : env.productData = [p])
    (hsel : parseUsize (rustTrim inputs.selectionString) = some 0)
    (hcoupon : env.couponStatus = .ok)
    (hpromo : ∀ j, env.promoStatus j = .ok)
    (hfuel : n.toNat ≤ fuel) :
    (mainRun env inputs fuel).trace[1]?
      = some (.createCoupon { name := rustTrim inputs.couponName
                              percent_off := 100
                              redeem_by := ts
                              applies_to := { products := [p.id] } }, .ok)
    ∧ (mainRun env inputs fuel).file
        = some ((List.range' 0 n.toNat).map
            (fun a => generate_random_code (env.draws a)))
    ∧ ∃ lines, (mainRun env inputs fuel).file = some lines
        ∧ lines.length = n.toNat
        ∧ ∀ l ∈ lines, l.length = 6 ∧ l.toList.all isCodeChar = true := by
  have hreq : ¬ n ≤ 0 := by omega
  have hall := promoLoop_allOk n.toNat env.couponId ts env.promoStatus env.draws
    fuel 0 0 [] (fun j _ => hpromo j) (by omega) (by omega)
  refine ⟨?_, ?_, ?_⟩
  · simp [mainRun, hdate, hcount, hreq, hprod, hdata, hsel, hcoupon]
  · simp [mainRun, hdate, hcount, hreq, hprod, hdata, hsel, hcoupon, hall]
  · refine ⟨(List.range' 0 n.toNat).map
        (fun a => generate_random_code (env.draws a)), ?_, ?_, ?_⟩
    · simp [mainRun, hdate, hcount, hreq, hprod, hdata, hsel, hcoupon, hall]
    · simp
    · intro l hl
      simp only [List.mem_map] at hl
      obtain ⟨a, _, rfl⟩ := hl
      exact ⟨generate_random_code_length _, generate_random_code_chars _⟩

/-- Closed instance of `C8_end_to_end`: three codes, one product, all
requests answered 200. -/
theorem C8_witness :
    (mainRun envA (inputsA "3\n" "0\n") 3).trace[1]?
      = some (.createCoupon { name := rustTrim (inputsA "3\n" "0\n").couponName
                              percent_off := 100
                              redeem_by := 1893542399
                              applies_to := { products := ["prod_A"] } }, .ok)
    ∧ (mainRun envA (inputsA "3\n" "0\n") 3).file
        = some ((List.range' 0 (3 : Int).toNat).map
            (fun a => generate_random_code (envA.draws a))) :=
  ⟨(C8_end_to_end envA (inputsA "3\n" "0\n") 3 1893542399 3
      { id := "prod_A", name := "Widget" } (by decide) (by decide) (by decide)
      rfl rfl (by decide) rfl (fun _ => rfl) (by decide)).1,
   (C8_end_to_end envA (inputsA "3\n" "0\n") 3 1893542399 3
      { id := "prod_A", name := "Widget" } (by decide) (by decide) (by decide)
      rfl rfl (by decide) rfl (fun _ => rfl) (by decide)).2.1⟩

/-- Claim C10: the requested code count is parsed as a 32-bit signed integer,
so any digit-string input whose value exceeds 2147483647 fails to parse —
even though it is numerically positive — and the run aborts through the
cannot-parse path before any network call. -/
theorem C10_count_i32_range (cs : List Char) (hne : cs ≠ [])
    (hdig : cs.all isDigitChar = true) (hbig : 2147483647 < digitsToNat cs) :
    0 < digitsToNat cs
    ∧ parseI32 (String.mk cs) = none
    ∧ ∀ (env : Env) (inputs : Inputs) (fuel : Nat) (ts : Int),
        parseExpiration env.tzOffset (rustTrim inputs.expirationString)
          = some ts →
        rustTrim inputs.codeCountString = String.mk cs →
        (mainRun env inputs fuel).trace = []
        ∧ (mainRun env inputs fuel).outcome = .abortedCountParse := by
  have hnone : parseI32 (String.mk cs) = none := by
    obtain ⟨c, rest, rfl⟩ : ∃ c rest, cs = c :: rest := by
      cases cs with
      | nil => exact absurd rfl hne
      | cons c rest => exact ⟨c, rest, rfl⟩
    have hc : isDigitChar c = true := by
      simp only [List.all_cons, Bool.and_eq_true] at hdig
      exact hdig.1
    have hplus : ¬ c = '+' := by
      rintro rfl
      simp [isDigitChar] at hc
    have hminus : ¬ c = '-' := by
      rintro rfl
      simp [isDigitChar] at hc
    have hv : ¬ ((-2147483648 : Int) ≤ 1 * (digitsToNat (c :: rest) : Int)
        ∧ (1 : Int) * (digitsToNat (c :: rest) : Int) ≤ 2147483647) := by
      have := hbig
      omega
    simp [parseI32, String.toList, hplus, hminus, hdig, hv]
    omega
  refine ⟨by omega, hnone, fun env inputs fuel ts hdate hct => ?_⟩
  constructor <;> simp [mainRun, hdate, hct, hnone]

/-- The digits of 2^31 = 2147483648, the first value rejected by the `i32`
parse. -/
def bigDigits : List Char := "2147483648".toList

/-- Closed instance of `C10_count_i32_range` at input 2147483648. -/
theorem C10_witness :
    0 < digitsToNat bigDigits
    ∧ parseI32 (String.mk bigDigits) = none
    ∧ (mainRun envA (inputsA "2147483648\n" "0\n") 0).trace = []
    ∧ (mainRun envA (inputsA "2147483648\n" "0\n") 0).outcome
        = .abortedCountParse :=
  ⟨(C10_count_i32_range bigDigits (by decide) (by decide) (by decide)).1,
   (C10_count_i32_range bigDigits (by decide) (by decide) (by decide)).2.1,
   ((C10_count_i32_range bigDigits (by decide) (by decide) (by decide)).2.2
      envA (inputsA "2147483648\n" "0\n") 0 1893542399 (by decide) (by decide)).1,
   ((C10_count_i32_range bigDigits (by decide) (by decide) (by decide)).2.2
      envA (inputsA "2147483648\n" "0\n") 0 1893542399 (by decide) (by decide)).2⟩

end RustyVoucher
